import Mathlib

/-!
Shallow embedding of the thread-continuity and response-delivery coordinator
of the `hr_agent` package (files `agents/hr_agent.py`, `thread_store.py`,
`session_store.py`, `cosmos_thread_store.py`, `webapp.py`).

External collaborators (the Azure AI answering engine, the Cosmos store, the
local state files) are modelled as an explicit environment `Env`; the
coordinator logic of `ask` (thread resolution, engine invocation, answer
coercion, conditional persistence, and the streaming generator) is translated
line by line from the source.  Python truthiness of optional strings
(`None` and `""` are falsy) is modelled by `truthy`.
-/

namespace HRAgent

/-- Shapes a semantic-kernel response value can take, as far as `_to_text`
distinguishes them: `None`, a `str`, a `list`, an object exposing a
`content` attribute, or anything else (modelled by its `str(x)` rendering).
The constructors are mutually exclusive, matching the fact that Python
strings and lists carry no `content` attribute. -/
inductive SKValue where
  | none : SKValue
  | str (s : String) : SKValue
  | list (xs : List SKValue) : SKValue
  | obj (content : SKValue) : SKValue
  | other (s : String) : SKValue

mutual

/-- `_to_text` from `agents/hr_agent.py` lines 28-39: coerce a response
value to plain text. -/
def toText : SKValue → String
  | SKValue.none => ""
  | SKValue.str s => s
  | SKValue.list xs => String.intercalate "\n" (toTextList xs)
  | SKValue.obj c => toText c
  | SKValue.other s => s

/-- The elementwise coercion used by the `list` branch of `_to_text`
(`"\n".join(_to_text(i) for i in x)`). -/
def toTextList : List SKValue → List String
  | [] => []
  | x :: xs => toText x :: toTextList xs

end

/-- `getattr(resp, "content", resp)`: a value with a `content` attribute
yields that attribute, any other value yields itself. -/
def getattrContent : SKValue → SKValue
  | SKValue.obj c => c
  | v => v

/-- Python truthiness of an optional string: `None` and `""` are falsy. -/
def truthy : Option String → Bool
  | Option.none => false
  | Option.some s => s ≠ ""

/-- Python `a or b` on optional strings. -/
def pyOr (a b : Option String) : Option String :=
  if truthy a then a else b

/-- Python `str.strip()`: drop leading and trailing whitespace. -/
def stripWS (s : String) : String :=
  String.mk (((s.data.dropWhile Char.isWhitespace).reverse.dropWhile
    Char.isWhitespace).reverse)

/-- Contents of the local fallback thread file `.state/thread_id.txt`
(`thread_store.py`): `file = none` models a missing file, `some raw` its raw
text. -/
structure ThreadFile where
  file : Option String
deriving DecidableEq

namespace ThreadStore

/-- `ThreadStore.load` (`thread_store.py` lines 17-21): absent file gives
`None`; otherwise the stripped contents, with `""` coerced to `None`. -/
def load (f : ThreadFile) : Option String :=
  match f.file with
  | Option.none => Option.none
  | Option.some raw =>
      let tid := stripWS raw
      if tid = "" then Option.none else Option.some tid

/-- `ThreadStore.save` (`thread_store.py` lines 23-26): empty ids are not
written; otherwise the file is overwritten. -/
def save (f : ThreadFile) (thread_id : String) : ThreadFile :=
  if thread_id = "" then f else { file := Option.some thread_id }

end ThreadStore

/-- A Cosmos document for one session (`cosmos_thread_store.py`): `doc.get`
on a missing `thread_id` field yields `None`, hence an optional field. -/
structure CosmosDoc where
  thread_id : Option String
deriving DecidableEq

/-- `CosmosThreadStore.get_thread_id` (`cosmos_thread_store.py` lines 52-63):
the underlying `read_item` either returns a document or raises (modelled by
`Except.error`, covering both not-found and transient failures); every
exception is swallowed and mapped to `None`. -/
def get_thread_id (r : Except String CosmosDoc) : Option String :=
  match r with
  | Except.ok doc => doc.thread_id
  | Except.error _ => Option.none

/-- The answering engine's non-streaming response, as consumed by `ask`:
the response object (for `_to_text(getattr(resp, "content", resp))`), the
thread object's `id` after the call (`getattr(thread, "id", None)`), and
`getattr(getattr(resp, "thread", None), "id", None)`. -/
structure EngineResult where
  resp : SKValue
  threadIdAfter : Option String
  respThreadId : Option String

/-- The external world `ask` interacts with.  `cosmosRead` gives the outcome
of `read_item` per session key; `engine` the non-streaming response as a
function of the question and the thread reference the engine is invoked with;
`streamMsgs` the `content` attribute (with `SKValue.none` for an absent
attribute) of each message produced by `invoke_stream`; and
`streamThreadIdAfter` the thread object's `id` once the stream is drained. -/
structure Env where
  localSessionId : String
  cosmosRead : String → Except String CosmosDoc
  engine : String → Option String → EngineResult
  streamMsgs : String → Option String → List SKValue
  streamThreadIdAfter : Option String → Option String

/-- The arguments of `ask` (`agents/hr_agent.py` lines 88-95); `stream` is
modelled by the choice between `ask` (the `stream=False` branch) and
`streamTrace` (the `stream=True` branch). -/
structure AskArgs where
  question : String
  thread_id : Option String
  reuse_thread : Bool
  cosmos_tid : Option String
  session_id : Option String

/-- `session_id = SessionStore.default().load_or_create()` only when the
argument `is None` (`agents/hr_agent.py` lines 108-109). -/
def sessionIdOf (env : Env) (args : AskArgs) : String :=
  args.session_id.getD env.localSessionId

/-- The state of `ask` after thread resolution. -/
structure Resolved where
  sid : String
  thread_id : Option String
  cosmos_tid : Option String
  invoked : Option String

/-- Thread resolution (`agents/hr_agent.py` lines 113-116 and 131-135):
when `reuse_thread and not thread_id`, both `cosmos_tid` and `thread_id`
become the Cosmos lookup result; otherwise both keep their argument values.
`invoked` is the thread reference the engine sees: the thread object is
built with `thread_id` only `if thread_id` is truthy, else a fresh thread. -/
def resolve (env : Env) (args : AskArgs) : Resolved :=
  let sid := sessionIdOf env args
  let p :=
    if args.reuse_thread && !truthy args.thread_id then
      let t := get_thread_id (env.cosmosRead sid)
      (t, t)
    else
      (args.thread_id, args.cosmos_tid)
  { sid := sid
    thread_id := p.1
    cosmos_tid := p.2
    invoked := if truthy p.1 then p.1 else Option.none }

/-- The observable outcome of a non-streaming `ask`: the returned pair
`(answer, tid)`, the thread reference the engine was invoked with, the
Cosmos upserts performed, and the `ThreadStore.save` calls performed (the
source performs none: `ThreadStore` is never imported by `ask`). -/
structure AskResult where
  answer : String
  tid : Option String
  invoked : Option String
  writes : List (String × String)
  fallbackWrites : List String
deriving DecidableEq

/-- The `stream=False` branch of `ask` (`agents/hr_agent.py` lines 160-180):
`tid = getattr(thread, "id", None) or getattr(getattr(resp, "thread", None),
"id", None)`; upsert only `if reuse_thread and tid` and
`if not cosmos_tid or tid != cosmos_tid`; answer text is
`_to_text(getattr(resp, "content", resp))`. -/
def ask (env : Env) (args : AskArgs) : AskResult :=
  let r := resolve env args
  let er := env.engine args.question r.invoked
  let tid := pyOr er.threadIdAfter er.respThreadId
  let doWrite :=
    args.reuse_thread && truthy tid &&
      (!truthy r.cosmos_tid || decide (tid ≠ r.cosmos_tid))
  { answer := toText (getattrContent er.resp)
    tid := tid
    invoked := r.invoked
    writes := if doWrite then [(r.sid, tid.getD "")] else []
    fallbackWrites := [] }

/-- One increment yielded by the streaming generator: either
`{"type": "chunk", "content": ...}` or `{"type": "done", "thread_id": ...}`. -/
inductive Increment where
  | chunk (content : String) : Increment
  | done (thread_id : Option String) : Increment
deriving DecidableEq

/-- One step of the generator body: either yielding an increment to the
consumer or performing a Cosmos upsert. -/
inductive Action where
  | yieldInc (i : Increment) : Action
  | write (session_id thread_id : String) : Action
deriving DecidableEq

/-- The chunk-yield actions of `_stream_generator`'s loop
(`agents/hr_agent.py` lines 188-194): one yield per message whose coerced
text is non-empty. -/
def chunkActsOf (msgs : List SKValue) : List Action :=
  msgs.filterMap fun m =>
    if toText m = "" then Option.none
    else Option.some (Action.yieldInc (Increment.chunk (toText m)))

/-- The chunk increments of a stream, as the consumer sees them. -/
def chunkIncsOf (msgs : List SKValue) : List Increment :=
  msgs.filterMap fun m =>
    if toText m = "" then Option.none
    else Option.some (Increment.chunk (toText m))

/-- The full action trace of `_stream_generator` (`agents/hr_agent.py`
lines 183-205): chunk yields, then the conditional Cosmos upsert, then the
single terminal yield. -/
def streamTrace (env : Env) (args : AskArgs) : List Action :=
  let r := resolve env args
  let msgs := env.streamMsgs args.question r.invoked
  let tid := env.streamThreadIdAfter r.invoked
  let doWrite :=
    args.reuse_thread && truthy tid &&
      (!truthy r.cosmos_tid || decide (tid ≠ r.cosmos_tid))
  chunkActsOf msgs ++
    (if doWrite then [Action.write r.sid (tid.getD "")] else []) ++
    [Action.yieldInc (Increment.done tid)]

/-- The thread reference carried by the terminal increment
(`tid = getattr(thread, "id", None)` at line 199). -/
def streamFinalTid (env : Env) (args : AskArgs) : Option String :=
  env.streamThreadIdAfter (resolve env args).invoked

/-- The chunk increments of `streamTrace env args`. -/
def streamChunkIncs (env : Env) (args : AskArgs) : List Increment :=
  chunkIncsOf (env.streamMsgs args.question (resolve env args).invoked)

/-- The increments a consumer that drains the whole generator receives. -/
def increments (tr : List Action) : List Increment :=
  tr.filterMap fun a =>
    match a with
    | Action.yieldInc i => Option.some i
    | Action.write _ _ => Option.none

/-- The Cosmos upserts contained in a trace. -/
def writesOf (tr : List Action) : List (String × String) :=
  tr.filterMap fun a =>
    match a with
    | Action.write s t => Option.some (s, t)
    | Action.yieldInc _ => Option.none

/-- Generator semantics of partial consumption: pulling `k` times executes
the trace up to and including the `k`-th yield (each pull runs the body
until its next `yield`; an abandoned generator runs nothing further). -/
def takeYields : List Action → Nat → List Action
  | _, 0 => []
  | [], _ + 1 => []
  | Action.yieldInc i :: rest, k + 1 => Action.yieldInc i :: takeYields rest k
  | Action.write s t :: rest, k + 1 => Action.write s t :: takeYields rest (k + 1)

/-- Python `"".join`: plain concatenation of a list of strings. -/
def joinAll : List String → String
  | [] => ""
  | s :: rest => s ++ joinAll rest

/-- What the websocket consumer accumulates (`webapp.py` lines 125-167):
the contents of the chunk increments, joined by `"".join`. -/
def accumulate (incs : List Increment) : String :=
  joinAll (incs.filterMap fun i =>
    match i with
    | Increment.chunk t => Option.some t
    | Increment.done _ => Option.none)

/-- Replay a list of Cosmos upserts against a directory state. -/
def applyWrites : (String → Option String) → List (String × String) → String → Option String
  | db, [] => db
  | db, (s, t) :: rest => applyWrites (fun k => if k = s then Option.some t else db k) rest

/-- Replay a list of `ThreadStore.save` calls against a fallback file. -/
def applyFallbackWrites (f : ThreadFile) (ws : List String) : ThreadFile :=
  ws.foldl ThreadStore.save f

/-- The websocket endpoint's own persistence step (`webapp.py` lines
218-221): upsert only `if new_tid and new_tid != thread_id`. -/
def wsPersistWrites (session_id : String) (new_tid thread_id : Option String) :
    List (String × String) :=
  if truthy new_tid && decide (new_tid ≠ thread_id) then
    [(session_id, new_tid.getD "")]
  else []

/-- `session_id = ws.query_params.get("session_id") or "session_unknown"`
(`webapp.py` line 59). -/
def resolve_session_id (q : Option String) : String :=
  if truthy q then q.getD "" else "session_unknown"

/-- Whether an increment is a chunk carrying non-empty text. -/
def chunkOk : Increment → Bool
  | Increment.chunk t => t ≠ ""
  | Increment.done _ => false

/-- An engine that answers "See policy doc." on thread `t-100`. -/
def engineT100 : String → Option String → EngineResult :=
  fun _ _ =>
    { resp := SKValue.str "See policy doc."
      threadIdAfter := Option.some "t-100"
      respThreadId := Option.none }

/-- A world with an empty thread directory. -/
def env1 : Env :=
  { localSessionId := "session_local"
    cosmosRead := fun _ => Except.ok { thread_id := Option.none }
    engine := engineT100
    streamMsgs := fun _ _ => []
    streamThreadIdAfter := fun _ => Option.none }

/-- First-exchange call for session `S1`. -/
def args1 : AskArgs :=
  { question := "What is the leave policy?"
    thread_id := Option.none
    reuse_thread := true
    cosmos_tid := Option.none
    session_id := Option.some "S1" }

/-- A world whose thread directory is unreachable (every read raises). -/
def env2 : Env :=
  { env1 with cosmosRead := fun _ => Except.error "ServiceUnavailable" }

/-- A CLI-context call: no session id supplied. -/
def args2 : AskArgs :=
  { args1 with session_id := Option.none }

/-- A fallback thread file holding a valid cached reference. -/
def fb2 : ThreadFile := { file := Option.some "t-fb" }

/-- An engine that echoes thread `t-1`. -/
def env3 : Env :=
  { env1 with
      engine := fun _ _ =>
        { resp := SKValue.str "ok"
          threadIdAfter := Option.some "t-1"
          respThreadId := Option.none } }

/-- A call that supplies thread `t-1` explicitly. -/
def args3 : AskArgs :=
  { args1 with thread_id := Option.some "t-1" }

/-- A world whose thread directory already maps the session to `t-100`. -/
def envC3w : Env :=
  { env1 with cosmosRead := fun _ => Except.ok { thread_id := Option.some "t-100" } }

/-- A streaming world: fragments "Hel", "lo" and final thread `t-200`. -/
def env7 : Env :=
  { env1 with
      streamMsgs := fun _ _ => [SKValue.str "Hel", SKValue.str "lo"]
      streamThreadIdAfter := fun _ => Option.some "t-200" }

/-- Like `env7` but with a non-streaming answer equal to the fragment
concatenation. -/
def env9 : Env :=
  { env7 with
      engine := fun _ _ =>
        { resp := SKValue.str "Hello"
          threadIdAfter := Option.some "t-200"
          respThreadId := Option.none }
      streamMsgs := fun _ _ => [SKValue.str "Hel", SKValue.str "lo"] }

/-! ## Helper lemmas -/

theorem toTextList_eq_map (xs : List SKValue) : toTextList xs = xs.map toText := by
  induction xs with
  | nil => rfl
  | cons x xs ih => simp [toTextList, ih]

theorem chunkIncsOf_cons (m : SKValue) (rest : List SKValue) :
    chunkIncsOf (m :: rest) =
      if toText m = "" then chunkIncsOf rest
      else Increment.chunk (toText m) :: chunkIncsOf rest := by
  by_cases h : toText m = "" <;> simp [chunkIncsOf, List.filterMap_cons, h]

theorem chunkActsOf_eq_map (msgs : List SKValue) :
    chunkActsOf msgs = (chunkIncsOf msgs).map Action.yieldInc := by
  induction msgs with
  | nil => rfl
  | cons m rest ih =>
    rw [chunkIncsOf_cons]
    by_cases h : toText m = "" <;>
      simp [chunkActsOf, List.filterMap_cons, h] <;>
      simpa [chunkActsOf] using ih

theorem increments_map_yield (incs : List Increment) :
    increments (incs.map Action.yieldInc) = incs := by
  induction incs with
  | nil => rfl
  | cons i is ih =>
    simp only [List.map_cons, increments, List.filterMap_cons]
    simpa [increments] using ih

theorem increments_append (a b : List Action) :
    increments (a ++ b) = increments a ++ increments b := by
  simp [increments, List.filterMap_append]

theorem increments_streamTrace (env : Env) (args : AskArgs) :
    increments (streamTrace env args) =
      streamChunkIncs env args ++ [Increment.done (streamFinalTid env args)] := by
  simp only [streamTrace, streamChunkIncs, streamFinalTid]
  rw [increments_append, increments_append, chunkActsOf_eq_map, increments_map_yield]
  split <;> simp [increments]

theorem all_chunkOk (msgs : List SKValue) :
    (chunkIncsOf msgs).all chunkOk = true := by
  rw [List.all_eq_true]
  intro i hi
  simp only [chunkIncsOf, List.mem_filterMap] at hi
  obtain ⟨m, _, hm⟩ := hi
  by_cases h : toText m = ""
  · simp [h] at hm
  · rw [if_neg h] at hm
    injection hm with h2
    rw [← h2]
    simp [chunkOk, h]

theorem takeYields_zero (tr : List Action) : takeYields tr 0 = [] := by
  cases tr with
  | nil => rfl
  | cons a rest => cases a <;> rfl

theorem writesOf_takeYields_yields (incs : List Increment) (rest : List Action) :
    ∀ k, k ≤ incs.length →
      writesOf (takeYields (incs.map Action.yieldInc ++ rest) k) = [] := by
  induction incs with
  | nil =>
    intro k hk
    have hz : k = 0 := Nat.le_zero.mp hk
    subst hz
    rw [takeYields_zero]
    rfl
  | cons i is ih =>
    intro k hk
    match k with
    | 0 => rw [takeYields_zero]; rfl
    | k + 1 =>
      simp only [List.map_cons, List.cons_append, takeYields]
      simp only [writesOf, List.filterMap_cons]
      exact ih k (Nat.le_of_succ_le_succ hk)

theorem accumulate_cons_chunk (t : String) (l : List Increment) :
    accumulate (Increment.chunk t :: l) = t ++ accumulate l := by
  simp [accumulate, List.filterMap_cons, joinAll]

theorem accumulate_cons_done (tid : Option String) (l : List Increment) :
    accumulate (Increment.done tid :: l) = accumulate l := by
  simp [accumulate, List.filterMap_cons]

theorem accumulate_chunkIncs (msgs : List SKValue) :
    accumulate (chunkIncsOf msgs) = joinAll (msgs.map toText) := by
  induction msgs with
  | nil => rfl
  | cons m rest ih =>
    rw [chunkIncsOf_cons, List.map_cons, joinAll]
    by_cases h : toText m = ""
    · rw [if_pos h, ih, h]
      simp
    · rw [if_neg h, accumulate_cons_chunk, ih]

theorem accumulate_append_done (incs : List Increment) (tid : Option String) :
    accumulate (incs ++ [Increment.done tid]) = accumulate incs := by
  induction incs with
  | nil => rfl
  | cons i is ih =>
    cases i with
    | chunk t =>
      rw [List.cons_append, accumulate_cons_chunk, accumulate_cons_chunk, ih]
    | done t =>
      rw [List.cons_append, accumulate_cons_done, accumulate_cons_done, ih]

theorem streamTrace_eq (env : Env) (args : AskArgs) :
    streamTrace env args =
      (streamChunkIncs env args).map Action.yieldInc ++
        ((if args.reuse_thread && truthy (streamFinalTid env args) &&
              (!truthy (resolve env args).cosmos_tid ||
                decide (streamFinalTid env args ≠ (resolve env args).cosmos_tid)) then
            [Action.write (resolve env args).sid ((streamFinalTid env args).getD "")]
          else []) ++
          [Action.yieldInc (Increment.done (streamFinalTid env args))]) := by
  simp only [streamTrace, streamChunkIncs, streamFinalTid]
  rw [chunkActsOf_eq_map]
  simp [List.append_assoc]

theorem ask_invoked (env : Env) (args : AskArgs) :
    (ask env args).invoked = (resolve env args).invoked := rfl

theorem ask_tid (env : Env) (args : AskArgs) :
    (ask env args).tid =
      pyOr (env.engine args.question (resolve env args).invoked).threadIdAfter
        (env.engine args.question (resolve env args).invoked).respThreadId := rfl

theorem ask_answer (env : Env) (args : AskArgs) :
    (ask env args).answer =
      toText (getattrContent (env.engine args.question (resolve env args).invoked).resp) :=
  rfl

theorem ask_writes (env : Env) (args : AskArgs) :
    (ask env args).writes =
      if args.reuse_thread && truthy (ask env args).tid &&
          (!truthy (resolve env args).cosmos_tid ||
            decide ((ask env args).tid ≠ (resolve env args).cosmos_tid)) then
        [((resolve env args).sid, (ask env args).tid.getD "")]
      else [] := rfl

theorem resolve_load (env : Env) (args : AskArgs)
    (hreuse : args.reuse_thread = true) (hth : truthy args.thread_id = false) :
    resolve env args =
      { sid := sessionIdOf env args
        thread_id := get_thread_id (env.cosmosRead (sessionIdOf env args))
        cosmos_tid := get_thread_id (env.cosmosRead (sessionIdOf env args))
        invoked :=
          if truthy (get_thread_id (env.cosmosRead (sessionIdOf env args))) then
            get_thread_id (env.cosmosRead (sessionIdOf env args))
          else Option.none } := by
  unfold resolve
  rw [hreuse, hth]
  simp

theorem resolve_explicit (env : Env) (args : AskArgs)
    (hcond : (args.reuse_thread && !truthy args.thread_id) = false) :
    resolve env args =
      { sid := sessionIdOf env args
        thread_id := args.thread_id
        cosmos_tid := args.cosmos_tid
        invoked := if truthy args.thread_id then args.thread_id else Option.none } := by
  unfold resolve
  rw [hcond]
  simp

/-! ## Claim theorems -/

/-- C5: the answer-text coercion `_to_text` maps `None` to the empty string,
a string to itself, a list to the newline-join of the recursively coerced
elements, an object exposing a `content` attribute to the coercion of that
attribute, and any other value to its default textual representation. -/
theorem c5_to_text_coercion :
    toText SKValue.none = "" ∧
    (∀ s : String, toText (SKValue.str s) = s) ∧
    (∀ xs : List SKValue,
      toText (SKValue.list xs) = String.intercalate "\n" (xs.map toText)) ∧
    (∀ c : SKValue, toText (SKValue.obj c) = toText c) ∧
    (∀ s : String, toText (SKValue.other s) = s) := by
  refine ⟨rfl, fun s => rfl, fun xs => ?_, fun c => rfl, fun s => rfl⟩
  rw [toText, toTextList_eq_map]

/-- C10: a websocket connection without a `session_id` query parameter gets
the fixed session id `"session_unknown"`; hence all such connections read and
write the very same entry of the thread directory — a thread id persisted by
one is the one looked up by any other. -/
theorem c10_default_session_shared :
    resolve_session_id Option.none = "session_unknown" ∧
    ∀ (db : String → Option String) (t : String),
      applyWrites db [(resolve_session_id Option.none, t)]
          (resolve_session_id Option.none) = Option.some t := by
  refine ⟨rfl, ?_⟩
  intro db t
  simp [applyWrites, resolve_session_id, truthy]

/-- C2 counterexample: Durable Thread Directory unreachable (`env2`), the
local Fallback Store holds the valid reference `t-fb` (`fb2`), a CLI-context
call (`args2`: no session id, `reuse_thread = true`, no explicit thread) —
yet `ask` invokes the engine with no thread at all: the fallback value is
never consulted, the exchange starts a new thread instead of continuing. -/
theorem c2_counterexample :
    ThreadStore.load fb2 = Option.some "t-fb" ∧
    (ask env2 args2).invoked = Option.none ∧
    (ask env2 args2).invoked ≠ ThreadStore.load fb2 := by
  refine ⟨by decide, rfl, by decide⟩

/-- C2 (amended): with `reuse_thread = true` and no explicit thread
reference, a Durable Thread Directory miss (confirmed or transient) makes
`ask` invoke the Answering Engine with no thread reference; the Fallback
Store is never consulted (in any execution context). -/
theorem c2_amended_no_fallback (env : Env) (args : AskArgs)
    (hreuse : args.reuse_thread = true)
    (hth : truthy args.thread_id = false)
    (hmiss : get_thread_id (env.cosmosRead (sessionIdOf env args)) = Option.none) :
    (ask env args).invoked = Option.none := by
  rw [ask_invoked, resolve_load env args hreuse hth]
  simp [hmiss, truthy]

/-- Witness for the amended C2 at a concrete unreachable directory. -/
theorem c2_amended_witness :
    args2.reuse_thread = true ∧
    truthy args2.thread_id = false ∧
    get_thread_id (env2.cosmosRead (sessionIdOf env2 args2)) = Option.none ∧
    (ask env2 args2).invoked = Option.none :=
  ⟨rfl, rfl, rfl, c2_amended_no_fallback env2 args2 rfl rfl rfl⟩

/-- C4 counterexample: a successful CLI-context exchange (`env1`, `args2`:
no session id supplied, `reuse_thread = true`) returns thread `t-100`, yet
`ask` performs no `ThreadStore.save`: replaying its fallback writes against
an empty fallback file leaves the file empty — the single slot does not end
up holding `t-100`. -/
theorem c4_counterexample :
    (ask env1 args2).tid = Option.some "t-100" ∧
    applyFallbackWrites { file := Option.none } (ask env1 args2).fallbackWrites =
      { file := Option.none } ∧
    ThreadStore.load
        (applyFallbackWrites { file := Option.none } (ask env1 args2).fallbackWrites) ≠
      Option.some "t-100" := by
  refine ⟨rfl, rfl, by decide⟩

/-- C4 (amended): the reconciliation step of `ask` performs no write to the
Fallback Store's thread slot at all — only the Durable Thread Directory is
(conditionally) written. -/
theorem c4_amended_no_fallback_write (env : Env) (args : AskArgs) :
    (ask env args).fallbackWrites = [] := rfl

/-- C1: with `reuse_thread = true`, no explicit thread, and no prior
recorded thread for the session, `ask` invokes the Answering Engine with an
absent thread reference; when the non-streaming exchange returns thread
reference `t`, the single Durable Thread Directory write maps the session id
to exactly `t`. -/
theorem c1_first_exchange (env : Env) (args : AskArgs) (sid t : String)
    (hsid : args.session_id = Option.some sid)
    (hreuse : args.reuse_thread = true)
    (hth : args.thread_id = Option.none)
    (hmiss : get_thread_id (env.cosmosRead sid) = Option.none)
    (ht : pyOr (env.engine args.question Option.none).threadIdAfter
            (env.engine args.question Option.none).respThreadId = Option.some t)
    (htne : t ≠ "") :
    (ask env args).invoked = Option.none ∧
      (ask env args).writes = [(sid, t)] ∧
      ∀ db : String → Option String,
        applyWrites db (ask env args).writes sid = Option.some t := by
  have hsidOf : sessionIdOf env args = sid := by simp [sessionIdOf, hsid]
  have hth' : truthy args.thread_id = false := by rw [hth]; rfl
  have hres := resolve_load env args hreuse hth'
  rw [hsidOf, hmiss] at hres
  have hinv : (ask env args).invoked = Option.none := by
    rw [ask_invoked, hres]
    simp [truthy]
  have htid : (ask env args).tid = Option.some t := by
    rw [ask_tid, hres]
    simpa [truthy] using ht
  have hw : (ask env args).writes = [(sid, t)] := by
    rw [ask_writes, htid, hres]
    simp [hreuse, truthy, htne]
  refine ⟨hinv, hw, ?_⟩
  intro db
  rw [hw]
  simp [applyWrites]

/-- Witness for C1 at a concrete empty directory and engine answer. -/
theorem c1_witness :
    args1.session_id = Option.some "S1" ∧
    args1.reuse_thread = true ∧
    args1.thread_id = Option.none ∧
    get_thread_id (env1.cosmosRead "S1") = Option.none ∧
    pyOr (env1.engine args1.question Option.none).threadIdAfter
        (env1.engine args1.question Option.none).respThreadId = Option.some "t-100" ∧
    ("t-100" ≠ "") ∧
    ((ask env1 args1).invoked = Option.none ∧
      (ask env1 args1).writes = [("S1", "t-100")] ∧
      ∀ db : String → Option String,
        applyWrites db (ask env1 args1).writes "S1" = Option.some "t-100") :=
  ⟨rfl, rfl, rfl, rfl, rfl, by decide,
    c1_first_exchange env1 args1 "S1" "t-100" rfl rfl rfl rfl rfl (by decide)⟩

/-- C3 counterexample: a call that supplies thread `t-1` explicitly
(`args3`) with the default `cosmos_tid = None`; the engine returns the very
same reference `t-1`, yet `ask` performs a Durable Thread Directory write —
the claim's "no write when the returned reference equals the previously
known one, including an explicitly supplied thread reference" fails. -/
theorem c3_counterexample :
    args3.thread_id = Option.some "t-1" ∧
    args3.reuse_thread = true ∧
    (ask env3 args3).tid = Option.some "t-1" ∧
    (ask env3 args3).writes ≠ [] := by
  refine ⟨rfl, rfl, rfl, by decide⟩

/-- C3 (amended): when the previously known reference is the one loaded
from the Durable Thread Directory during resolution (`reuse_thread = true`,
no explicit thread), an exchange whose returned reference equals it performs
no Directory write; likewise the websocket endpoint's own persistence step
writes nothing when the returned reference equals the connection's known
one.  (With an explicitly supplied thread reference and the default absent
`cosmos_tid`, `ask` writes even when the reference is unchanged.) -/
theorem c3_amended_no_write_when_unchanged :
    (∀ (env : Env) (args : AskArgs),
        args.reuse_thread = true →
        truthy args.thread_id = false →
        (ask env args).tid = get_thread_id (env.cosmosRead (sessionIdOf env args)) →
        (ask env args).writes = []) ∧
    (∀ (sid : String) (tid0 : Option String), wsPersistWrites sid tid0 tid0 = []) := by
  constructor
  · intro env args hreuse hth htid
    have hres := resolve_load env args hreuse hth
    rw [ask_writes, htid, hres]
    cases hg : truthy (get_thread_id (env.cosmosRead (sessionIdOf env args))) <;>
      simp [hg]
  · intro sid tid0
    simp [wsPersistWrites]

/-- Witness for the amended C3: directory already maps the session to
`t-100` and the engine echoes `t-100` back — no write. -/
theorem c3_amended_witness :
    args1.reuse_thread = true ∧
    truthy args1.thread_id = false ∧
    (ask envC3w args1).tid = get_thread_id (envC3w.cosmosRead (sessionIdOf envC3w args1)) ∧
    (ask envC3w args1).writes = [] ∧
    wsPersistWrites "S1" (Option.some "t-100") (Option.some "t-100") = [] :=
  ⟨rfl, rfl, rfl, c3_amended_no_write_when_unchanged.1 envC3w args1 rfl rfl rfl,
    c3_amended_no_write_when_unchanged.2 "S1" (Option.some "t-100")⟩

/-- C6: for every fragment sequence, the increments of a streamed exchange
are zero or more chunk increments, each carrying non-empty coerced text
(empty fragments are not emitted), followed by exactly one terminal
increment carrying the final (possibly absent) thread reference; the list is
finite, so the sequence is exhausted afterwards. -/
theorem c6_stream_shape (env : Env) (args : AskArgs) :
    increments (streamTrace env args) =
      streamChunkIncs env args ++ [Increment.done (streamFinalTid env args)] ∧
    (streamChunkIncs env args).all chunkOk = true :=
  ⟨increments_streamTrace env args, all_chunkOk _⟩

/-- C7: a consumer that pulls fewer increments than the whole sequence
(that is, never consumes the terminal increment) executes no Durable Thread
Directory write: the upsert lies between the last chunk yield and the
terminal yield, so an abandoned generator never reaches it. -/
theorem c7_no_write_before_terminal (env : Env) (args : AskArgs) (k : Nat)
    (hk : k < (increments (streamTrace env args)).length) :
    writesOf (takeYields (streamTrace env args) k) = [] := by
  have hlen : (increments (streamTrace env args)).length =
      (streamChunkIncs env args).length + 1 := by
    rw [increments_streamTrace]
    simp
  have hk' : k ≤ (streamChunkIncs env args).length := by omega
  rw [streamTrace_eq]
  exact writesOf_takeYields_yields _ _ k hk'

/-- Witness for C7: a two-fragment stream, consumer stops after the two
chunks — no write executed. -/
theorem c7_witness :
    2 < (increments (streamTrace env7 args1)).length ∧
    writesOf (takeYields (streamTrace env7 args1) 2) = [] :=
  ⟨by decide, c7_no_write_before_terminal env7 args1 2 (by decide)⟩

/-- C8: a failing Durable Thread Directory read never propagates:
`get_thread_id` maps every raised error to absent; under thread reuse with
no explicit thread, `ask` then invokes the engine with no thread reference,
and its whole observable behaviour is identical to a run whose read
confirms that no thread is recorded. -/
theorem c8_fail_open :
    (∀ e : String, get_thread_id (Except.error e) = (Option.none : Option String)) ∧
    (∀ (env : Env) (args : AskArgs) (e : String),
        args.reuse_thread = true →
        truthy args.thread_id = false →
        (ask { env with cosmosRead := fun _ => Except.error e } args).invoked =
          Option.none) ∧
    (∀ (env : Env) (args : AskArgs) (e : String) (doc : CosmosDoc),
        doc.thread_id = Option.none →
        ask { env with cosmosRead := fun _ => Except.error e } args =
          ask { env with cosmosRead := fun _ => Except.ok doc } args) := by
  refine ⟨fun e => rfl, ?_, ?_⟩
  · intro env args e hreuse hth
    rw [ask_invoked, resolve_load _ args hreuse hth]
    simp [get_thread_id, truthy]
  · intro env args e doc hdoc
    have hres : resolve { env with cosmosRead := fun _ => Except.error e } args =
        resolve { env with cosmosRead := fun _ => Except.ok doc } args := by
      unfold resolve
      cases hcond : (args.reuse_thread && !truthy args.thread_id) <;>
        simp [hcond, sessionIdOf, get_thread_id, hdoc]
    unfold ask
    rw [hres]

/-- Witness for C8: unreachable directory behaves as empty directory. -/
theorem c8_witness :
    args1.reuse_thread = true ∧
    truthy args1.thread_id = false ∧
    ({ thread_id := Option.none } : CosmosDoc).thread_id = Option.none ∧
    get_thread_id (Except.error "timeout") = (Option.none : Option String) ∧
    (ask { env1 with cosmosRead := fun _ => Except.error "timeout" } args1).invoked =
      Option.none ∧
    ask { env1 with cosmosRead := fun _ => Except.error "timeout" } args1 =
      ask { env1 with cosmosRead := fun _ => Except.ok { thread_id := Option.none } } args1 :=
  ⟨rfl, rfl, rfl, c8_fail_open.1 "timeout",
    c8_fail_open.2.1 env1 args1 "timeout" rfl rfl,
    c8_fail_open.2.2 env1 args1 "timeout" { thread_id := Option.none } rfl⟩

/-- C9: when the whole-answer text of the non-streaming response equals the
concatenation of the coerced stream fragments, the non-streaming answer
equals the text the streaming consumer accumulates (dropped empty fragments
do not change the concatenation). -/
theorem c9_stream_nonstream_agree (env : Env) (args : AskArgs)
    (h : toText (getattrContent
          (env.engine args.question (resolve env args).invoked).resp) =
        joinAll ((env.streamMsgs args.question (resolve env args).invoked).map toText)) :
    (ask env args).answer = accumulate (increments (streamTrace env args)) := by
  rw [ask_answer, h, increments_streamTrace, accumulate_append_done]
  simp only [streamChunkIncs]
  rw [accumulate_chunkIncs]

/-- Witness for C9: whole answer "Hello", fragments "Hel" and "lo". -/
theorem c9_witness :
    toText (getattrContent
        (env9.engine args1.question (resolve env9 args1).invoked).resp) =
      joinAll ((env9.streamMsgs args1.question (resolve env9 args1).invoked).map toText) ∧
    (ask env9 args1).answer = accumulate (increments (streamTrace env9 args1)) :=
  ⟨by decide, c9_stream_nonstream_agree env9 args1 (by decide)⟩

end HRAgent
